import Mathlib

/-!
Verification development for the jinn-core economic simulation engine.

The definitions below are shallow embeddings, over `ℚ`, of the Python sources:
  * `src/models/bank_panic.py`   — the simple bank-panic function and the
    constant-duration panic-intensity (decay) function;
  * `src/models/crypto_panic.py` — the multi-agent crypto-panic simulator
    (agents, correlated price process, exchange state machine, driver);
  * `src/engine.py`              — the model registry and dispatcher;
  * the parameter resolver `_validate_parameters` shared by the models.

Machine floats are modelled as exact rationals, numpy's globally seeded
generator as an abstract function of (seed, position) threaded through the
driver, and `np.exp` as an abstract function argument.  Fallible code paths
(Python `ZeroDivisionError`) are modelled with `Option`.
-/

/-- Python `int(q)` truncates toward zero (bank_panic.py line 55 applies it to a
nonnegative quotient). -/
def pyInt (q : ℚ) : ℤ := if 0 ≤ q then ⌊q⌋ else -⌊-q⌋

/-! ## Bank panic: the simple interpretable function (bank_panic.py lines 28-74) -/

/-- Result record of `simulate_bank_panic` (bank_panic.py lines 68-74).
`survival_days` holds the value the function returns (999 stands for the
`float('inf')` case), while `bank_survives` is computed from the pre-conversion
value, exactly as in the source. -/
structure BankPanicResult where
  daily_withdrawals : ℚ
  remaining_liquidity : ℚ
  survival_days : ℤ
  bank_survives : Bool
  liquidity_ratio : ℚ

/-- Embedding of `simulate_bank_panic` (bank_panic.py lines 28-74). -/
def simulate_bank_panic (total_deposits liquid_reserves withdrawal_rate central_bank_support : ℚ) :
    BankPanicResult :=
  let daily_withdrawals := total_deposits * (withdrawal_rate / 100)
  let total_liquidity := liquid_reserves + central_bank_support
  -- `survival_days = int(total_liquidity / daily_withdrawals)` when positive,
  -- `float('inf')` otherwise (modelled as `none`)
  let survival_days? : Option ℤ :=
    if 0 < daily_withdrawals then some (pyInt (total_liquidity / daily_withdrawals)) else none
  let remaining_liquidity := max 0 (total_liquidity - daily_withdrawals)
  -- `bank_survives = survival_days >= 7`, evaluated before the 999 substitution
  let bank_survives : Bool :=
    match survival_days? with
    | some d => decide (7 ≤ d)
    | none => true
  let liquidity_ratio := if 0 < total_deposits then remaining_liquidity / total_deposits * 100 else 0
  { daily_withdrawals := daily_withdrawals
    remaining_liquidity := remaining_liquidity
    survival_days := survival_days?.getD 999
    bank_survives := bank_survives
    liquidity_ratio := liquidity_ratio }

/-! ## Bank panic: constant-duration panic intensity (bank_panic.py lines 213-226) -/

/-- Embedding of `BankPanicModel._calculate_panic_intensity` (bank_panic.py lines
213-226): 0 before the start, constant 1.0 for `panic_duration` periods, then the
exponential tail `recovery_rate ** (period - start - duration)`, clamped to `≥ 0`. -/
def bankPanicIntensity (recovery_rate : ℚ) (start_period panic_duration period : ℕ) : ℚ :=
  if period < start_period then 0
  else
    let panic_period := period - start_period
    if panic_period < panic_duration then 1
    else max 0 (recovery_rate ^ (panic_period - panic_duration))

/-- Spec §4.2 reads the intensity profile as a decay function scaled by the
shock's peak magnitude; the bank-panic model is its "constant peak for the
whole duration" variant with the model parameter `recovery_rate` as the
persistence. -/
def bankDecay (peak_magnitude persistence : ℚ) (start_period panic_duration period : ℕ) : ℚ :=
  peak_magnitude * bankPanicIntensity persistence start_period panic_duration period

/-! ## Engine dispatcher (engine.py lines 42-126) -/

/-- Insertion-ordered string-keyed dictionary, the shallow model of a Python dict. -/
abbrev Dict (V : Type) : Type := List (String × V)

/-- Python `d[k]` / `k in d` lookup (first binding wins; a Python dict has unique
keys, an association list generalizes that). -/
def dictGet {V : Type} : Dict V → String → Option V
  | [], _ => none
  | (k, v) :: rest, key => if k = key then some v else dictGet rest key

/-- The scenario document (engine.py lines 96-108): `scenario.get('model')` may be
absent (`none`), `parameters` and `simulation` are uninterpreted payloads here. -/
structure ScenarioDoc (Par Cfg : Type) where
  model : Option String
  parameters : Par
  simulation : Cfg

/-- The engine's only error type on the dispatch path: `ValueError(f"Unknown
model: {model_name}")` (engine.py line 98), carrying the requested name (which
is `None` when the scenario has no `model` key). -/
inductive EngineError where
  | unknownModel : Option String → EngineError

/-- Packaged result of a successful run (engine.py lines 114-123); the metadata
block only carries wall-clock times and is omitted. -/
structure RunOutput (Par Cfg Res : Type) where
  model : String
  scenario : ScenarioDoc Par Cfg
  results : Res

/-- Engine state (engine.py lines 45-50): the model registry plus the
`scenarios` and `results` dicts (which no engine method ever writes). -/
structure EngineState (Impl X : Type) where
  models : List (String × Impl)
  scenarios : Dict X
  results : Dict X

/-- Registry lookup used by `run_simulation`: `scenario.get('model')` followed by
`model_name not in self.models` (engine.py lines 96-97). -/
def lookupModel {Impl X Par Cfg : Type} (eng : EngineState Impl X)
    (sc : ScenarioDoc Par Cfg) : Option Impl :=
  match sc.model with
  | none => none
  | some n => eng.models.lookup n

/-- Embedding of `SimulationEngine.run_simulation` (engine.py lines 86-126).
`runModel impl par cfg` stands for `model_class(parameters).simulate(simulation)`;
the engine state is threaded through explicitly so that the theorem can speak
about it being (un)changed. -/
def runSimulation {Impl X Par Cfg Res : Type}
    (runModel : Impl → Par → Cfg → Res)
    (eng : EngineState Impl X) (sc : ScenarioDoc Par Cfg) :
    Except EngineError (RunOutput Par Cfg Res) × EngineState Impl X :=
  match sc.model with
  | none => (Except.error (EngineError.unknownModel none), eng)
  | some n =>
    match eng.models.lookup n with
    | none => (Except.error (EngineError.unknownModel (some n)), eng)
    | some impl =>
      (Except.ok { model := n, scenario := sc, results := runModel impl sc.parameters sc.simulation },
       eng)

/-- The names registered by `SimulationEngine._register_models` (engine.py lines
52-65); used by the witness below. -/
def registeredModelNames : List String :=
  ["interest_rate", "inflation_shock", "bank_panic", "military_spending_shock",
   "global_conflict", "earth_rotation_shock", "btc_price_projection",
   "ai_unemployment_shock", "plastic_spread_simulation",
   "geopolitical_land_analyst", "crypto_panic"]

/-! ## Parameter resolver `_validate_parameters`
(crypto_panic.py lines 108-169, bank_panic.py lines 99-133) -/

/-- Python `params[key] = value` for a key not yet present appends the binding
(insertion order is preserved by Python dicts). -/
def dictAppend {V : Type} (d : Dict V) (k : String) (v : V) : Dict V := d ++ [(k, v)]

/-- The defaults-merging loop shared by both `_validate_parameters` bodies
(crypto_panic.py lines 164-167, bank_panic.py lines 128-131):
`for key, default_value in defaults.items(): if key not in params: params[key] = default_value`.
The fold mutates `params` itself; the function value is the mutated dict. -/
def validateParameters {V : Type} (defaults : Dict V) (params : Dict V) : Dict V :=
  defaults.foldl
    (fun acc kv => if (dictGet acc kv.1).isSome then acc else dictAppend acc kv.1 kv.2)
    params

/-- A heap of Python dict objects, indexed by object identity. -/
abbrev DictHeap (V : Type) : Type := ℕ → Dict V

/-- Model construction `self.parameters = self._validate_parameters(parameters)`
(crypto_panic.py line 105, bank_panic.py line 96): the dict object at address
`a` is updated in place and the *same address* is stored in `self.parameters`
— the resolver returns `params`, not a copy. -/
def constructModelParams {V : Type} (defaults : Dict V) (h : DictHeap V) (a : ℕ) :
    DictHeap V × ℕ :=
  (Function.update h a (validateParameters defaults (h a)), a)

/-! ## Crypto panic model (crypto_panic.py lines 85-603)

Randomness: `np.random.seed(seed)` (line 184) resets numpy's process-wide
Mersenne-Twister; afterwards the t-th variate of the stream is a pure function
of `(seed, t)`.  We model the generator state as a `(seed, position)` pair and
the stream itself as an abstract `gen : ℕ → ℕ → ℚ` giving standard variates
(standard normal for `np.random.normal(0, σ)`, uniform on `[0,1)` for
`np.random.random()`, with the usual affine rescalings).  `np.exp` appears
only in the post-panic tail (line 295) and is abstracted as `e : ℕ → ℚ` with
`e k` standing for `exp(-0.2 * k)`. -/

/-- Dynamics-relevant model parameters with their defaults from
`CryptoPanicModel._validate_parameters` (crypto_panic.py lines 110-162).
Parameters that the simulation never reads (agent counts, unused calibration
knobs) are omitted. -/
structure CryptoParams where
  btc_initial_price : ℚ
  eth_initial_price : ℚ
  doge_initial_price : ℚ
  btc_supply : ℚ
  eth_supply : ℚ
  doge_supply : ℚ
  num_exchanges : ℕ
  retail_panic_threshold : ℚ
  retail_sell_probability : ℚ
  retail_herd_multiplier : ℚ
  retail_doge_fomo : ℚ
  whale_coordination_prob : ℚ
  whale_doge_pump_power : ℚ
  exchange_recovery_rate : ℚ
  exchange_freeze_threshold : ℚ
  doge_celebrity_effect : ℚ
  doge_volatility_multiplier : ℚ
  doge_pump_probability : ℚ
  price_volatility_base : ℚ
  btc_to_eth_correlation : ℚ
  btc_to_doge_correlation : ℚ
  eth_to_doge_correlation : ℚ
  periods : ℕ
  random_seed : ℕ

/-- The default calibration (crypto_panic.py lines 110-162). -/
def cryptoDefaults : CryptoParams :=
  { btc_initial_price := 45000
    eth_initial_price := 3000
    doge_initial_price := 3/20
    btc_supply := 19500000
    eth_supply := 120000000
    doge_supply := 140000000000
    num_exchanges := 20
    retail_panic_threshold := 1/20
    retail_sell_probability := 3/10
    retail_herd_multiplier := 2
    retail_doge_fomo := 4/5
    whale_coordination_prob := 1/5
    whale_doge_pump_power := 2
    exchange_recovery_rate := 1/10
    exchange_freeze_threshold := 2/5
    doge_celebrity_effect := 3/10
    doge_volatility_multiplier := 3
    doge_pump_probability := 1/10
    price_volatility_base := 1/50
    btc_to_eth_correlation := 7/10
    btc_to_doge_correlation := 2/5
    eth_to_doge_correlation := 3/10
    periods := 30
    random_seed := 42 }

/-- Shock record `CryptoPanicShock` (crypto_panic.py lines 20-27).
`trigger_type` only selects log/summary text and is omitted;
`contagion_factor` is stored but never read by the dynamics. -/
structure CryptoShock where
  trigger_intensity : ℚ
  panic_duration : ℕ
  start_period : ℕ
  contagion_factor : ℚ

/-- The `panic` sub-dict of the simulation config; each key is optional
(crypto_panic.py lines 187-194 use `.get` with defaults). -/
structure PanicConfig where
  trigger_intensity : Option ℚ
  panic_duration : Option ℕ
  start_period : Option ℕ
  contagion_factor : Option ℚ

/-- Parsing of the panic configuration with its defaults
(crypto_panic.py lines 188-194). -/
def parseShock (cfg : PanicConfig) : CryptoShock :=
  { trigger_intensity := cfg.trigger_intensity.getD (3/5)
    panic_duration := cfg.panic_duration.getD 7
    start_period := cfg.start_period.getD 0
    contagion_factor := cfg.contagion_factor.getD (3/20) }

/-- State of numpy's global generator: the last seed planted and the position
in that seed's stream. -/
structure Rng where
  seed : ℕ
  pos : ℕ

/-- One raw variate from the stream (advances the position). -/
def drawRaw (gen : ℕ → ℕ → ℚ) (g : Rng) : ℚ × Rng :=
  (gen g.seed g.pos, { seed := g.seed, pos := g.pos + 1 })

/-- Model of `np.random.normal(0, sigma)`: a standard-normal variate scaled by `sigma`. -/
def drawNormal (gen : ℕ → ℕ → ℚ) (g : Rng) (sigma : ℚ) : ℚ × Rng :=
  ((drawRaw gen g).1 * sigma, (drawRaw gen g).2)

/-- Model of `np.random.uniform(a, b)`: a `[0,1)` variate rescaled to `[a,b)`. -/
def drawUniform (gen : ℕ → ℕ → ℚ) (g : Rng) (a b : ℚ) : ℚ × Rng :=
  (a + (b - a) * (drawRaw gen g).1, (drawRaw gen g).2)

/-- Embedding of `CryptoPanicModel._calculate_panic_intensity`
(crypto_panic.py lines 275-296).  During the panic window the profile ramps to
`peak_period = panic_duration // 2` and decays back; `relative_period /
peak_period` raises `ZeroDivisionError` when `peak_period = 0`, i.e. when
`panic_duration = 1` and the period hits the window — modelled as `none`.
After the window the residual is `trigger_intensity * 0.1 * exp(-0.2 * k)`,
clamped at 0. -/
def cryptoPanicIntensity (e : ℕ → ℚ) (sh : CryptoShock) (period : ℕ) : Option ℚ :=
  if period < sh.start_period then some 0
  else if period < sh.start_period + sh.panic_duration then
    let relative_period : ℕ := period - sh.start_period
    let peak_period : ℕ := sh.panic_duration / 2
    if relative_period ≤ peak_period then
      if peak_period = 0 then none
      else some (max 0 (sh.trigger_intensity * ((relative_period : ℚ) / (peak_period : ℚ))))
    else
      some (max 0 (sh.trigger_intensity *
        (((sh.panic_duration : ℚ) - (relative_period : ℚ)) /
         ((sh.panic_duration : ℚ) - (peak_period : ℚ)))))
  else
    some (max 0 (sh.trigger_intensity * (1/10) * e (period - sh.start_period - sh.panic_duration)))

/-- Retail panic-state update (crypto_panic.py lines 303-307): builds by
`intensity * 0.5` above the threshold, decays by 0.1 otherwise, clamped to
`[0, 1]`. -/
def retailPanicNext (P : CryptoParams) (panic_state intensity : ℚ) : ℚ :=
  if P.retail_panic_threshold < intensity then min 1 (panic_state + intensity * (1/2))
  else max 0 (panic_state - 1/10)

/-- Retail sell rate (crypto_panic.py lines 310-312). -/
def retailSellRate (P : CryptoParams) (panic_state : ℚ) : ℚ :=
  min 1 ((panic_state * P.retail_sell_probability) * (1 + panic_state * P.retail_herd_multiplier))

/-- Outputs of the whale-cohort update. -/
structure WhaleOut where
  coordination_level : ℚ
  manipulation_intent : ℚ
  rng : Rng

/-- Whale update (crypto_panic.py lines 315-324): above intensity 0.3 the
coordination level rises and the intent is redrawn as `uniform(-1,1) *
coordination`; otherwise coordination decays by 0.2 and the intent by the
factor 0.8 (no variate drawn). -/
def whaleNext (P : CryptoParams) (gen : ℕ → ℕ → ℚ) (g : Rng)
    (coord intent intensity : ℚ) : WhaleOut :=
  if (3:ℚ)/10 < intensity then
    let coordination_prob := P.whale_coordination_prob * intensity
    let coord' := min 1 (coord + coordination_prob)
    let u := drawUniform gen g (-1) 1
    { coordination_level := coord', manipulation_intent := u.1 * coord', rng := u.2 }
  else
    { coordination_level := max 0 (coord - 1/5), manipulation_intent := intent * (4/5), rng := g }

/-- Per-period outputs of the price phase. -/
structure PriceStep where
  btc_change : ℚ
  eth_change : ℚ
  doge_change : ℚ
  btc_noise : ℚ
  eth_noise : ℚ
  doge_noise : ℚ
  celeb_effect : ℚ
  pump_effect : ℚ
  btc_price : ℚ
  eth_price : ℚ
  doge_price : ℚ
  btc_volume : ℚ
  eth_volume : ℚ
  doge_volume : ℚ
  liquidation_volume : ℚ

/-- Embedding of `CryptoPanicModel._update_asset_prices` for `period ≥ 1`
(crypto_panic.py lines 342-427), with the source's draw order: celebrity
check, optional celebrity impulse, pump check, optional pump impulse, then
the BTC, ETH and DOGE normals.  `btc_noise` is the BTC normal; `eth_noise`
and `doge_noise` are the independent terms after their `(1 - correlation)`
scaling, exactly as they enter the returns. -/
def priceUpdate (P : CryptoParams) (gen : ℕ → ℕ → ℚ) (g : Rng)
    (intensity sell_rate intent prev_liquidity prev_btc prev_eth prev_doge : ℚ) :
    PriceStep × Rng :=
  let btc_volatility := P.price_volatility_base * (1 + intensity * 2)
  let eth_volatility := P.price_volatility_base * (1 + intensity * (5/2))
  let doge_volatility := P.price_volatility_base * P.doge_volatility_multiplier * (1 + intensity * 3)
  let retail_sell_pressure := sell_rate * (1/10)
  let whale_impact := intent * (1/20)
  let whale_doge_impact := whale_impact * P.whale_doge_pump_power
  let liquidity_impact := (1 - prev_liquidity) * (1/5)
  let c1 := drawRaw gen g
  let celeb :=
    if c1.1 < P.doge_celebrity_effect then drawUniform gen c1.2 (-(3/20)) (3/10)
    else (0, c1.2)
  let c2 := drawRaw gen celeb.2
  let pump :=
    if c2.1 < P.doge_pump_probability then drawUniform gen c2.2 (1/10) (1/2)
    else (0, c2.2)
  let nb := drawNormal gen pump.2 btc_volatility
  let btc_change := nb.1 - retail_sell_pressure + whale_impact - liquidity_impact
  let ne := drawNormal gen nb.2 eth_volatility
  let eth_independent := ne.1 * (1 - P.btc_to_eth_correlation)
  let eth_correlated := btc_change * P.btc_to_eth_correlation
  let eth_change := eth_correlated + eth_independent - retail_sell_pressure * (6/5) +
    whale_impact * (4/5) - liquidity_impact
  let nd := drawNormal gen ne.2 doge_volatility
  let doge_independent := nd.1 * (1 - P.btc_to_doge_correlation - P.eth_to_doge_correlation)
  let doge_change := btc_change * P.btc_to_doge_correlation +
    eth_change * P.eth_to_doge_correlation + doge_independent -
    retail_sell_pressure * P.retail_doge_fomo + whale_doge_impact +
    celeb.1 + pump.1 - liquidity_impact * (3/2)
  let btc_price := max (prev_btc * (1 + btc_change)) (prev_btc * (1/100))
  let eth_price := max (prev_eth * (1 + eth_change)) (prev_eth * (1/100))
  let doge_price := max (prev_doge * (1 + doge_change)) (prev_doge * (1/1000))
  let volume_multiplier := 1 + intensity * 3 + |btc_change| * 10
  let btc_volume := btc_price * P.btc_supply * (2/100) * volume_multiplier
  let eth_volume := eth_price * P.eth_supply * (3/100) * volume_multiplier
  let doge_volume := doge_price * P.doge_supply * (5/100) * volume_multiplier
  let liquidation_volume := (btc_volume + eth_volume + doge_volume) * (intensity * (1/10))
  ({ btc_change := btc_change, eth_change := eth_change, doge_change := doge_change
     btc_noise := nb.1, eth_noise := eth_independent, doge_noise := doge_independent
     celeb_effect := celeb.1, pump_effect := pump.1
     btc_price := btc_price, eth_price := eth_price, doge_price := doge_price
     btc_volume := btc_volume, eth_volume := eth_volume, doge_volume := doge_volume
     liquidation_volume := liquidation_volume }, nd.2)

/-- Liquidity-reserve update of one exchange for one period
(crypto_panic.py lines 436-445): only an operational exchange depletes by
`pressure * 0.1` (floored at 0) and recovers by `exchange_recovery_rate`
when the pressure is below the 0.1 cutoff (capped at 1). -/
def updateReserve (recovery_rate pressure r : ℚ) (op : Bool) : ℚ :=
  if op = true then
    let r1 := max 0 (r - pressure * (1/10))
    if pressure < 1/10 then min 1 (r1 + recovery_rate) else r1
  else r

/-- Operational-status update of one exchange (crypto_panic.py lines 447-457):
freeze when the reserve is below `exchange_freeze_threshold`, else (elif!)
re-open a frozen exchange when the reserve exceeds the hardcoded 0.8. -/
def updateStatus (freeze_threshold r' : ℚ) (op : Bool) : Bool :=
  if r' < freeze_threshold ∧ op = true then false
  else if (4:ℚ)/5 < r' ∧ op = false then true
  else op

/-- One exchange's full per-period transition: reserve loop then status loop
(adjacent loops over independent entries, fused per exchange). -/
def exchangeStep (recovery_rate freeze_threshold pressure : ℚ) (x : ℚ × Bool) : ℚ × Bool :=
  let r' := updateReserve recovery_rate pressure x.1 x.2
  (r', updateStatus freeze_threshold r' x.2)

/-- Model of `np.mean` over the reserve column (crypto_panic.py line 460). -/
def ratMean (l : List ℚ) : ℚ := l.sum / l.length

/-- Model of `np.clip(x, lo, hi)`. -/
def clip (lo hi x : ℚ) : ℚ := min hi (max lo x)

/-- Embedding of `_calculate_doge_social_media_index` for `period ≥ 1`
(crypto_panic.py lines 469-491). -/
def socialNext (intensity prev_social liquidity doge_price prev_doge : ℚ) : ℚ :=
  let doge_change := (doge_price - prev_doge) / prev_doge
  let price_momentum_score := 50 + doge_change * 1000
  let panic_score := 50 - intensity * 40
  let exchange_health := liquidity * 50
  let social_media_influence := prev_social + intensity * (1/20)
  clip 0 100 (price_momentum_score * (2/5) + panic_score * (3/10) +
    exchange_health * (1/5) + social_media_influence * (1/10))

/-- The values the driver records for one period: the slot-`t` entries of every
time series in `results` (crypto_panic.py lines 200-214 and the per-period
writes), plus snapshots of the internal agent state and the price-phase
decomposition used by the claims. -/
structure PeriodRecord where
  panic_intensity : ℚ
  retail_panic_state : ℚ
  retail_sell_rate : ℚ
  whale_coordination : ℚ
  whale_intent : ℚ
  whale_activity : ℚ
  btc_price : ℚ
  eth_price : ℚ
  doge_price : ℚ
  btc_change : ℚ
  eth_change : ℚ
  doge_change : ℚ
  btc_noise : ℚ
  eth_noise : ℚ
  doge_noise : ℚ
  celeb_effect : ℚ
  pump_effect : ℚ
  btc_volume : ℚ
  eth_volume : ℚ
  doge_volume : ℚ
  liquidation_volume : ℚ
  exchanges : List (ℚ × Bool)
  exchange_liquidity : ℚ
  exchanges_frozen : ℕ
  social_index : ℚ

/-- Mutable driver state between periods: generator, agent records, exchange
pool, the previous period's committed series values, and the series built so
far. -/
structure SimState where
  rng : Rng
  retail_panic : ℚ
  whale_coord : ℚ
  whale_intent : ℚ
  exchanges : List (ℚ × Bool)
  prev_btc : ℚ
  prev_eth : ℚ
  prev_doge : ℚ
  prev_liquidity : ℚ
  prev_social : ℚ
  records : List PeriodRecord

/-- Initial driver state (crypto_panic.py lines 184, 200-214, 248-273):
`np.random.seed(random_seed)`, price series pre-filled with the initial
prices, liquidity 1.0, social index 50, all agents at rest, every exchange
with full reserves and operational. -/
def initState (P : CryptoParams) : SimState :=
  { rng := { seed := P.random_seed, pos := 0 }
    retail_panic := 0
    whale_coord := 0
    whale_intent := 0
    exchanges := List.replicate P.num_exchanges (1, true)
    prev_btc := P.btc_initial_price
    prev_eth := P.eth_initial_price
    prev_doge := P.doge_initial_price
    prev_liquidity := 1
    prev_social := 50
    records := [] }

/-- The placeholder price-phase output for period 0 (crypto_panic.py lines
337-340): prices keep their pre-filled initial values, volumes and the
liquidation series stay 0, and no variate is drawn. -/
def priceStepInit (st : SimState) : PriceStep :=
  { btc_change := 0, eth_change := 0, doge_change := 0
    btc_noise := 0, eth_noise := 0, doge_noise := 0
    celeb_effect := 0, pump_effect := 0
    btc_price := st.prev_btc, eth_price := st.prev_eth, doge_price := st.prev_doge
    btc_volume := 0, eth_volume := 0, doge_volume := 0, liquidation_volume := 0 }

/-- The exchange-pool phase `_update_exchange_states` (crypto_panic.py lines
436-457): every exchange sees the same withdrawal pressure (line 331 fills the
pressure array with one scalar). -/
def exchangePoolNext (P : CryptoParams) (pressure : ℚ) (xs : List (ℚ × Bool)) :
    List (ℚ × Bool) :=
  xs.map (exchangeStep P.exchange_recovery_rate P.exchange_freeze_threshold pressure)

/-- The body of one driver iteration (crypto_panic.py lines 220-239) given the
period's panic intensity: agent updates → price process → exchange updates →
social index → record, in the source's order. -/
def cryptoStepCore (P : CryptoParams) (gen : ℕ → ℕ → ℚ) (st : SimState) (t : ℕ)
    (intensity : ℚ) : SimState :=
  let retail_panic := retailPanicNext P st.retail_panic intensity
  let sell_rate := retailSellRate P retail_panic
  let w := whaleNext P gen st.rng st.whale_coord st.whale_intent intensity
  let pressure := intensity * (1 + sell_rate)
  let pr : PriceStep × Rng :=
    if t = 0 then (priceStepInit st, w.rng)
    else priceUpdate P gen w.rng intensity sell_rate w.manipulation_intent
      st.prev_liquidity st.prev_btc st.prev_eth st.prev_doge
  let exchanges := exchangePoolNext P pressure st.exchanges
  let liquidity := ratMean (exchanges.map Prod.fst)
  let frozen := (exchanges.filter (fun x => x.2 = false)).length
  let social :=
    if t = 0 then 50
    else socialNext intensity st.prev_social liquidity pr.1.doge_price st.prev_doge
  { rng := pr.2
    retail_panic := retail_panic
    whale_coord := w.coordination_level
    whale_intent := w.manipulation_intent
    exchanges := exchanges
    prev_btc := pr.1.btc_price
    prev_eth := pr.1.eth_price
    prev_doge := pr.1.doge_price
    prev_liquidity := liquidity
    prev_social := social
    records := st.records ++
      [{ panic_intensity := intensity
         retail_panic_state := retail_panic
         retail_sell_rate := sell_rate
         whale_coordination := w.coordination_level
         whale_intent := w.manipulation_intent
         whale_activity := |w.manipulation_intent|
         btc_price := pr.1.btc_price
         eth_price := pr.1.eth_price
         doge_price := pr.1.doge_price
         btc_change := pr.1.btc_change
         eth_change := pr.1.eth_change
         doge_change := pr.1.doge_change
         btc_noise := pr.1.btc_noise
         eth_noise := pr.1.eth_noise
         doge_noise := pr.1.doge_noise
         celeb_effect := pr.1.celeb_effect
         pump_effect := pr.1.pump_effect
         btc_volume := pr.1.btc_volume
         eth_volume := pr.1.eth_volume
         doge_volume := pr.1.doge_volume
         liquidation_volume := pr.1.liquidation_volume
         exchanges := exchanges
         exchange_liquidity := liquidity
         exchanges_frozen := frozen
         social_index := social }] }

/-- One iteration of the driver loop; `none` propagates the
`ZeroDivisionError` of the intensity computation (crypto_panic.py line 285). -/
def cryptoStep (P : CryptoParams) (sh : CryptoShock) (gen : ℕ → ℕ → ℚ) (e : ℕ → ℚ)
    (st : SimState) (t : ℕ) : Option SimState :=
  (cryptoPanicIntensity e sh t).map (cryptoStepCore P gen st t)

/-- Embedding of `CryptoPanicModel.simulate` (crypto_panic.py lines 171-246):
parse the panic config, reseed the global generator — note the incoming
generator state `g0` is discarded by `np.random.seed` on line 184 — and run
the driver for `periods` iterations, returning the recorded series (`none` if
an iteration raised). -/
def cryptoSimulate (P : CryptoParams) (cfg : PanicConfig) (gen : ℕ → ℕ → ℚ) (e : ℕ → ℚ)
    (g0 : Rng) : Option (List PeriodRecord) :=
  let _ := g0
  let sh := parseShock cfg
  ((List.range P.periods).foldl
      (fun acc t => acc.bind (fun st => cryptoStep P sh gen e st t))
      (some (initState P))).map SimState.records

/-! ## Concrete inputs reused by witnesses and counterexamples -/

/-- An all-zero variate stream (a legal outcome for the abstract generator). -/
def zeroGen : ℕ → ℕ → ℚ := fun _ _ => 0

/-- A trivial stand-in for `exp(-0.2 k)` (the claims below never depend on it). -/
def oneExp : ℕ → ℚ := fun _ => 1

/-- A panic config with `panic_duration = 1`. -/
def cfgDur1 : PanicConfig :=
  { trigger_intensity := some (3/5), panic_duration := some 1,
    start_period := some 0, contagion_factor := none }

/-- A zero-intensity panic config over the default duration. -/
def cfgZero : PanicConfig :=
  { trigger_intensity := some 0, panic_duration := some 7,
    start_period := some 0, contagion_factor := none }

/-! ## C4: range invariants of the crypto run -/

/-- The slot-t series entries the claim constrains: positive prices, per-exchange
reserves and aggregate liquidity in `[0, 1]`. -/
def recordBounded (rec : PeriodRecord) : Prop :=
  0 < rec.btc_price ∧ 0 < rec.eth_price ∧ 0 < rec.doge_price ∧
  (∀ x ∈ rec.exchanges, 0 ≤ x.1 ∧ x.1 ≤ 1) ∧
  0 ≤ rec.exchange_liquidity ∧ rec.exchange_liquidity ≤ 1

/-- Driver-state invariant that propagates `recordBounded` period by period. -/
def stateBounded (st : SimState) : Prop :=
  0 < st.prev_btc ∧ 0 < st.prev_eth ∧ 0 < st.prev_doge ∧
  (∀ x ∈ st.exchanges, 0 ≤ x.1 ∧ x.1 ≤ 1) ∧ st.exchanges ≠ [] ∧
  ∀ rec ∈ st.records, recordBounded rec

/-- Every record of a completed run is bounded. -/
def runBounded (o : Option (List PeriodRecord)) : Prop :=
  ∀ recs, o = some recs → ∀ rec ∈ recs, recordBounded rec

/-- A configuration the resolver accepts (it performs no validation): one
exchange, a freeze threshold of 0 and a *negative* recovery rate, with unit
initial prices and supplies. -/
def paramsNegRecovery : CryptoParams :=
  { cryptoDefaults with
    btc_initial_price := 1, eth_initial_price := 1, doge_initial_price := 1,
    btc_supply := 1, eth_supply := 1, doge_supply := 1,
    num_exchanges := 1, periods := 2,
    exchange_recovery_rate := -1, exchange_freeze_threshold := 0 }

/-! ## C8: zero-intensity shock -/

/-- One period's record of a zero-intensity run: all cohorts at their initial
rest state and the three returns decomposed into correlated noise plus — for
DOGE — the exogenous celebrity/pump impulses only (no retail, whale or
liquidity pressure terms). -/
def atRestRecord (P : CryptoParams) (rec : PeriodRecord) : Prop :=
  rec.panic_intensity = 0 ∧ rec.retail_panic_state = 0 ∧ rec.retail_sell_rate = 0 ∧
  rec.whale_coordination = 0 ∧ rec.whale_intent = 0 ∧ rec.whale_activity = 0 ∧
  rec.btc_change = rec.btc_noise ∧
  rec.eth_change = rec.btc_change * P.btc_to_eth_correlation + rec.eth_noise ∧
  rec.doge_change = rec.btc_change * P.btc_to_doge_correlation +
    rec.eth_change * P.eth_to_doge_correlation + rec.doge_noise +
    rec.celeb_effect + rec.pump_effect

/-- The run completed and every period's record is at rest. -/
def runAtRest (P : CryptoParams) (o : Option (List PeriodRecord)) : Prop :=
  ∃ recs, o = some recs ∧ ∀ rec ∈ recs, atRestRecord P rec

/-- Driver-state invariant for a zero-intensity run. -/
def stateAtRest (P : CryptoParams) (st : SimState) : Prop :=
  st.retail_panic = 0 ∧ st.whale_coord = 0 ∧ st.whale_intent = 0 ∧
  (∀ x ∈ st.exchanges, x.1 = 1) ∧ st.exchanges ≠ [] ∧ st.prev_liquidity = 1 ∧
  ∀ rec ∈ st.records, atRestRecord P rec

/-- Unit-scale default parameters with a single exchange and two periods, used
by the concrete zero-intensity run below. -/
def paramsUnit : CryptoParams :=
  { cryptoDefaults with
    btc_initial_price := 1, eth_initial_price := 1, doge_initial_price := 1,
    btc_supply := 1, eth_supply := 1, doge_supply := 1,
    num_exchanges := 1, periods := 2 }

/-! ## Theorems -/

/-- C1 (counterexample): with `start=0, duration=3, peak=10, persistence=0.8` the
code returns 10 at period 3 — the first post-duration period still carries the
full residual `persistence^0 = 1` — not the claimed 8.0. -/
theorem bank_decay_scenario2_counterexample :
    bankDecay 10 (4/5) 0 3 3 = 10 ∧ (10 : ℚ) ≠ 8 := by
  constructor
  · norm_num [bankDecay, bankPanicIntensity]
  · norm_num

/-- C1 (amended): for the constant-duration variant with `start=0, duration=3,
peak=10, persistence=0.8` the decay returns 10 at periods 0, 2 and 3, then 8.0
at period 4 and 6.4 at period 5; in general, for every `period ≥ start +
duration` (and nonnegative persistence) the tail value is
`peak_magnitude * persistence^(period - start - duration)`, i.e. the claimed
formula with residual floor 1. -/
theorem bank_decay_constant_variant_values :
    bankDecay 10 (4/5) 0 3 0 = 10 ∧ bankDecay 10 (4/5) 0 3 2 = 10 ∧
    bankDecay 10 (4/5) 0 3 3 = 10 ∧ bankDecay 10 (4/5) 0 3 4 = 8 ∧
    bankDecay 10 (4/5) 0 3 5 = 32/5 ∧
    ∀ (M p : ℚ) (s d t : ℕ), 0 ≤ p → s + d ≤ t →
      bankDecay M p s d t = M * p ^ (t - s - d) := by
  refine ⟨?_, ?_, ?_, ?_, ?_, ?_⟩
  · norm_num [bankDecay, bankPanicIntensity]
  · norm_num [bankDecay, bankPanicIntensity]
  · norm_num [bankDecay, bankPanicIntensity]
  · norm_num [bankDecay, bankPanicIntensity]
  · norm_num [bankDecay, bankPanicIntensity]
  · intro M p s d t hp hle
    have hns : ¬ t < s := by omega
    have hnd : ¬ t - s < d := by omega
    have hmax : max 0 (p ^ (t - s - d)) = p ^ (t - s - d) :=
      max_eq_right (pow_nonneg hp _)
    simp only [bankDecay, bankPanicIntensity, if_neg hns, if_neg hnd, hmax]

/-- C1 (witness): the tail formula instantiated at period 7 of the scenario. -/
theorem bank_decay_constant_variant_values_witness :
    0 ≤ (4/5 : ℚ) ∧ 0 + 3 ≤ 7 ∧ bankDecay 10 (4/5) 0 3 7 = 10 * (4/5 : ℚ) ^ (7 - 0 - 3) :=
  ⟨by norm_num, by norm_num,
    bank_decay_constant_variant_values.2.2.2.2.2 10 (4/5) 0 3 7 (by norm_num) (by norm_num)⟩

/-- C6: the bank-panic simple function at `total_deposits=100e9,
liquid_reserves=15e9, withdrawal_rate=20.0, central_bank_support=10e9` yields
daily withdrawals of 20e9, remaining liquidity 5e9, and `bank_survives = False`
because the computed survival horizon `int(25e9/20e9) = 1` is below 7. -/
theorem bank_panic_simple_scenario1 :
    (simulate_bank_panic (100 * 10^9) (15 * 10^9) 20 (10 * 10^9)).daily_withdrawals = 20 * 10^9 ∧
    (simulate_bank_panic (100 * 10^9) (15 * 10^9) 20 (10 * 10^9)).remaining_liquidity = 5 * 10^9 ∧
    (simulate_bank_panic (100 * 10^9) (15 * 10^9) 20 (10 * 10^9)).survival_days = 1 ∧
    (simulate_bank_panic (100 * 10^9) (15 * 10^9) 20 (10 * 10^9)).survival_days < 7 ∧
    (simulate_bank_panic (100 * 10^9) (15 * 10^9) 20 (10 * 10^9)).bank_survives = false := by
  have h : ((15:ℚ) * 10^9 + 10 * 10^9) / (100 * 10^9 * (20/100)) = 5/4 := by norm_num
  refine ⟨by norm_num [simulate_bank_panic], ?_, ?_, ?_, ?_⟩ <;>
    simp only [simulate_bank_panic, h, pyInt] <;> norm_num

/-- C7: dispatching a scenario whose model name is not registered returns the
"unknown model" error carrying the requested name, with the engine state
returned unchanged; the result does not depend on `runModel`, i.e. no model is
constructed and no simulation state is created on this path. -/
theorem run_simulation_unknown_model {Impl X Par Cfg Res : Type}
    (runModel : Impl → Par → Cfg → Res)
    (eng : EngineState Impl X) (sc : ScenarioDoc Par Cfg)
    (h : lookupModel eng sc = none) :
    runSimulation runModel eng sc =
      (Except.error (EngineError.unknownModel sc.model), eng) := by
  cases hm : sc.model with
  | none => simp [runSimulation, hm]
  | some n =>
    simp only [lookupModel, hm] at h
    simp [runSimulation, hm, h]

/-- C7 (witness): the full registry of engine.py rejects the unregistered name
"quantum_panic" and leaves the engine untouched. -/
theorem run_simulation_unknown_model_witness :
    lookupModel { models := registeredModelNames.map (fun n => (n, ())),
                  scenarios := ([] : Dict Unit), results := [] }
      { model := some "quantum_panic", parameters := (), simulation := () } = none ∧
    runSimulation (fun (_ : Unit) (_ : Unit) (_ : Unit) => ())
      { models := registeredModelNames.map (fun n => (n, ())),
        scenarios := ([] : Dict Unit), results := [] }
      { model := some "quantum_panic", parameters := (), simulation := () } =
      (Except.error (EngineError.unknownModel (some "quantum_panic")),
       { models := registeredModelNames.map (fun n => (n, ())),
         scenarios := ([] : Dict Unit), results := [] }) :=
  ⟨by decide, run_simulation_unknown_model _ _ _ (by decide)⟩

/-- Lookup in an appended dict is unchanged on previously present keys. -/
theorem dictGet_append_of_isSome {V : Type} (d : Dict V) (k k' : String) (v' : V)
    (h : (dictGet d k).isSome) : dictGet (dictAppend d k' v') k = dictGet d k := by
  induction d with
  | nil => simp [dictGet] at h
  | cons kv rest ih =>
    by_cases hk : kv.1 = k
    · simp [dictAppend, dictGet, hk]
    · simp only [dictGet, if_neg hk] at h ⊢
      simpa [dictAppend] using ih h

/-- Appending a fresh key makes it found with the appended value. -/
theorem dictGet_append_self {V : Type} (d : Dict V) (k : String) (v : V)
    (h : dictGet d k = none) : dictGet (dictAppend d k v) k = some v := by
  induction d with
  | nil => simp [dictAppend, dictGet]
  | cons kv rest ih =>
    by_cases hk : kv.1 = k
    · simp [dictGet, hk] at h
    · simp only [dictGet, if_neg hk] at h
      simpa [dictAppend, dictGet, if_neg hk] using ih h

/-- Appending a different key keeps an absent key absent. -/
theorem dictGet_append_of_ne {V : Type} (d : Dict V) (k k' : String) (v' : V)
    (hne : k' ≠ k) (h : dictGet d k = none) : dictGet (dictAppend d k' v') k = none := by
  induction d with
  | nil => simp [dictAppend, dictGet, hne]
  | cons kv rest ih =>
    by_cases hk : kv.1 = k
    · simp [dictGet, hk] at h
    · simp only [dictGet, if_neg hk] at h
      simpa [dictAppend, dictGet, if_neg hk] using ih h

/-- Bindings already present survive the whole merge with their original values. -/
theorem validateParameters_preserves {V : Type} (defaults : Dict V) :
    ∀ (params : Dict V) (k : String) (v : V), dictGet params k = some v →
      dictGet (validateParameters defaults params) k = some v := by
  induction defaults with
  | nil => intro params k v h; simpa [validateParameters] using h
  | cons kv rest ih =>
    intro params k v h
    simp only [validateParameters, List.foldl_cons]
    by_cases hp : (dictGet params kv.1).isSome
    · simpa [validateParameters, hp] using ih params k v h
    · have h' : dictGet (dictAppend params kv.1 kv.2) k = some v := by
        rw [dictGet_append_of_isSome params k kv.1 kv.2 (by simp [h])]; exact h
      simpa [validateParameters, hp] using ih (dictAppend params kv.1 kv.2) k v h'

/-- A key absent from the caller's dict receives its first default binding. -/
theorem validateParameters_inserts {V : Type} (defaults : Dict V) :
    ∀ (params : Dict V) (k : String) (v : V), dictGet defaults k = some v →
      dictGet params k = none →
      dictGet (validateParameters defaults params) k = some v := by
  induction defaults with
  | nil => intro params k v h; simp [dictGet] at h
  | cons kv rest ih =>
    intro params k v h hnone
    simp only [validateParameters, List.foldl_cons]
    by_cases hk : kv.1 = k
    · -- the head default is the first binding of k: it is inserted now
      simp only [dictGet, if_pos hk] at h
      have hacc : ¬ (dictGet params kv.1).isSome := by
        rw [hk, hnone]; simp
      have hins : dictGet (dictAppend params kv.1 kv.2) k = some v := by
        rw [← h, ← hk]
        exact dictGet_append_self params kv.1 kv.2 (hk ▸ hnone)
      simpa [validateParameters, hacc] using
        validateParameters_preserves rest (dictAppend params kv.1 kv.2) k v hins
    · simp only [dictGet, if_neg hk] at h
      by_cases hp : (dictGet params kv.1).isSome
      · simpa [validateParameters, hp] using ih params k v h hnone
      · have hnone' : dictGet (dictAppend params kv.1 kv.2) k = none :=
          dictGet_append_of_ne params k kv.1 kv.2 hk hnone
        simpa [validateParameters, hp] using ih (dictAppend params kv.1 kv.2) k v h hnone'

/-- C10: model construction resolves parameters *in place*: the stored
configuration is the very dict object the caller passed (same heap address,
no fresh copy), every caller-supplied entry keeps its value, every defaults
key missing from the caller's dict is inserted into that same object with its
default value, and no other heap object is touched. -/
theorem construct_model_mutates_caller_dict {V : Type} (defaults : Dict V)
    (h : DictHeap V) (a : ℕ) :
    (constructModelParams defaults h a).2 = a ∧
    ((constructModelParams defaults h a).1 a =
      validateParameters defaults (h a)) ∧
    (∀ k v, dictGet (h a) k = some v →
      dictGet ((constructModelParams defaults h a).1 a) k = some v) ∧
    (∀ k v, dictGet defaults k = some v → dictGet (h a) k = none →
      dictGet ((constructModelParams defaults h a).1 a) k = some v) ∧
    (∀ b, b ≠ a → (constructModelParams defaults h a).1 b = h b) := by
  refine ⟨rfl, by simp [constructModelParams], ?_, ?_, ?_⟩
  · intro k v hv
    simpa [constructModelParams] using validateParameters_preserves defaults (h a) k v hv
  · intro k v hd hn
    simpa [constructModelParams] using validateParameters_inserts defaults (h a) k v hd hn
  · intro b hb
    simp [constructModelParams, Function.update, hb]

/-- C10 (witness): constructing a model over the caller dict `{"periods": 5}`
with defaults `{"periods": 30, "random_seed": 42}` mutates the caller's object
(same address 0) to `{"periods": 5, "random_seed": 42}` and leaves address 1
alone. -/
theorem construct_model_mutates_caller_dict_witness :
    (constructModelParams [("periods", (30:ℤ)), ("random_seed", 42)]
        (fun _ => [("periods", (5:ℤ))]) 0).2 = 0 ∧
    dictGet ((constructModelParams [("periods", (30:ℤ)), ("random_seed", 42)]
        (fun _ => [("periods", (5:ℤ))]) 0).1 0) "periods" = some 5 ∧
    dictGet ((constructModelParams [("periods", (30:ℤ)), ("random_seed", 42)]
        (fun _ => [("periods", (5:ℤ))]) 0).1 0) "random_seed" = some 42 ∧
    (constructModelParams [("periods", (30:ℤ)), ("random_seed", 42)]
        (fun _ => [("periods", (5:ℤ))]) 0).1 1 = [("periods", (5:ℤ))] :=
  ⟨(construct_model_mutates_caller_dict _ _ _).1,
   (construct_model_mutates_caller_dict _ _ _).2.2.1 "periods" 5 (by decide),
   (construct_model_mutates_caller_dict _ _ _).2.2.2.1 "random_seed" 42
     (by decide) (by decide),
   (construct_model_mutates_caller_dict _ _ _).2.2.2.2 1 (by norm_num)⟩

/-- C5: `simulate` reseeds the process-wide generator from the configured
`random_seed` before the first draw (crypto_panic.py line 184), so its output
is independent of the incoming generator state: two calls with identical
parameters and identical simulation config return identical values in every
recorded series. -/
theorem crypto_simulate_deterministic (P : CryptoParams) (cfg : PanicConfig)
    (gen : ℕ → ℕ → ℚ) (e : ℕ → ℚ) (g₁ g₂ : Rng) :
    cryptoSimulate P cfg gen e g₁ = cryptoSimulate P cfg gen e g₂ := rfl

/-- Reduction of the reserve update for an operational exchange. -/
theorem updateReserve_true (recovery_rate pressure r : ℚ) :
    updateReserve recovery_rate pressure r true =
      if pressure < 1/10 then min 1 (max 0 (r - pressure * (1/10)) + recovery_rate)
      else max 0 (r - pressure * (1/10)) := rfl

/-- An operational exchange whose updated reserve stays at or above the freeze
threshold remains Operational (the re-open branch is unreachable for it). -/
theorem updateStatus_true_of_not_lt (ft r' : ℚ) (h : ¬ r' < ft) :
    updateStatus ft r' true = true := by
  unfold updateStatus
  split_ifs with hc1 hc2
  · exact h hc1.1
  · rfl
  · rfl

/-- An operational exchange whose updated reserve falls below the freeze
threshold is Frozen at the end of the period, whatever the reserve's relation
to the 0.8 re-open bound. -/
theorem updateStatus_false_of_lt (ft r' : ℚ) (h : r' < ft) :
    updateStatus ft r' true = false := by
  unfold updateStatus
  split_ifs with hc1 hc2
  · rfl
  · exact hc2.2
  · exact hc1 ⟨h, rfl⟩

/-- C2: an exchange that is operational at the start of a period ends the
period's exchange update Frozen exactly when its updated reserve is below the
freeze threshold — in particular the `elif` re-open test (reserve > 0.8,
crypto_panic.py line 454) is skipped for an exchange frozen in the same
period, for every configuration (including `freeze_threshold > 0.8`, where
both conditions can hold at once) and every withdrawal pressure, hence every
RNG outcome.  Nothing after the status loop writes `operational_status`, so
this is the exchange's state at the end of the period. -/
theorem exchange_freeze_persists_same_period
    (recovery_rate freeze_threshold pressure r : ℚ) :
    (exchangeStep recovery_rate freeze_threshold pressure (r, true)).2 = false ↔
      (exchangeStep recovery_rate freeze_threshold pressure (r, true)).1 < freeze_threshold := by
  simp only [exchangeStep, updateStatus]
  by_cases h : updateReserve recovery_rate pressure r true < freeze_threshold <;> simp [h]

/-- C2 (witness): with `freeze_threshold = 0.9` and recovery 0.05, an
operational exchange's reserve lands on 0.85 — above the 0.8 re-open bound —
and the exchange is nevertheless frozen at the end of the period. -/
theorem exchange_freeze_persists_same_period_witness :
    (exchangeStep (1/20) (9/10) 0 (4/5, true)).1 < 9/10 ∧
    (4:ℚ)/5 < (exchangeStep (1/20) (9/10) 0 (4/5, true)).1 ∧
    (exchangeStep (1/20) (9/10) 0 (4/5, true)).2 = false :=
  ⟨by norm_num [exchangeStep, updateReserve, max_def, min_def],
   by norm_num [exchangeStep, updateReserve, max_def, min_def],
   (exchange_freeze_persists_same_period (1/20) (9/10) 0 (4/5)).mpr
     (by norm_num [exchangeStep, updateReserve, max_def, min_def])⟩

/-- C3 (counterexample): an operational exchange with reserve 0.35 and the
default `freeze_threshold = 0.4` and `exchange_recovery_rate = 0.1`, under
zero withdrawal pressure, recovers to 0.45 within the same update and stays
Operational — it does not freeze, contradicting "regardless of withdrawal
pressure sign". -/
theorem exchange_scenario3_counterexample :
    (exchangeStep (1/10) (2/5) 0 (7/20, true)).2 = true ∧
    (exchangeStep (1/10) (2/5) 0 (7/20, true)).1 = 9/20 := by
  constructor <;>
    norm_num [exchangeStep, updateReserve, updateStatus, max_def, min_def]

/-- C3 (amended): an operational exchange with reserve 0.35 under the default
thresholds (`freeze_threshold = 0.4`, recovery 0.1) ends the period Frozen
exactly when the withdrawal pressure is at least the 0.1 low-pressure cutoff;
for smaller (zero or negative) pressure the same-period recovery lifts the
reserve to at least 0.44 and the exchange stays Operational. -/
theorem exchange_scenario3_amended (pressure : ℚ) :
    (exchangeStep (1/10) (2/5) pressure (7/20, true)).2 = false ↔ 1/10 ≤ pressure := by
  have hstep : (exchangeStep (1/10) (2/5) pressure (7/20, true)).2 =
      updateStatus (2/5) (updateReserve (1/10) pressure (7/20) true) true := rfl
  by_cases hp : pressure < 1/10
  · have hr : updateReserve (1/10) pressure (7/20) true =
        min 1 (max 0 (7/20 - pressure * (1/10)) + 1/10) := by
      rw [updateReserve_true, if_pos hp]
    have h2 : (2:ℚ)/5 ≤ min 1 (max 0 (7/20 - pressure * (1/10)) + 1/10) := by
      refine le_min (by norm_num) ?_
      have h1 : (7:ℚ)/20 - pressure * (1/10) ≤ max 0 (7/20 - pressure * (1/10)) :=
        le_max_right _ _
      linarith
    rw [hstep, hr, updateStatus_true_of_not_lt _ _ (not_lt.mpr h2)]
    constructor
    · intro h; exact Bool.noConfusion h
    · intro h; exact absurd h (not_le.mpr hp)
  · have hple : (1:ℚ)/10 ≤ pressure := not_lt.mp hp
    have hr : updateReserve (1/10) pressure (7/20) true =
        max 0 (7/20 - pressure * (1/10)) := by
      rw [updateReserve_true, if_neg hp]
    have h1 : max 0 ((7:ℚ)/20 - pressure * (1/10)) < 2/5 :=
      max_lt (by norm_num) (by linarith)
    rw [hstep, hr, updateStatus_false_of_lt _ _ h1]
    exact iff_of_true rfl hple

/-- C3 (amended, witness): pressure 1 is above the cutoff and freezes the
0.35-reserve exchange in the same period. -/
theorem exchange_scenario3_amended_witness :
    (1:ℚ)/10 ≤ 1 ∧ (exchangeStep (1/10) (2/5) 1 (7/20, true)).2 = false :=
  ⟨by norm_num, (exchange_scenario3_amended 1).mpr (by norm_num)⟩

/-! ## Helpers for reasoning about the driver loop -/

/-- A failed iteration poisons the rest of the driver loop. -/
theorem foldl_bind_none {σ : Type} (f : σ → ℕ → Option σ) (l : List ℕ) :
    List.foldl (fun acc t => acc.bind (fun st => f st t)) none l = none := by
  induction l with
  | nil => rfl
  | cons t l ih => simpa using ih

/-- With `panic_duration = 1` the intensity computation divides `0 / 0` at the
start period. -/
theorem cryptoPanicIntensity_none_at_start (e : ℕ → ℚ) (sh : CryptoShock)
    (hd : sh.panic_duration = 1) :
    cryptoPanicIntensity e sh sh.start_period = none := by
  simp [cryptoPanicIntensity, hd]

/-- With `panic_duration = 1` every period other than the start period still
yields an intensity value. -/
theorem cryptoPanicIntensity_isSome_of_ne_start (e : ℕ → ℚ) (sh : CryptoShock)
    (hd : sh.panic_duration = 1) (t : ℕ) (ht : t ≠ sh.start_period) :
    (cryptoPanicIntensity e sh t).isSome = true := by
  unfold cryptoPanicIntensity
  by_cases h1 : t < sh.start_period
  · simp [h1]
  · have h2 : ¬ t < sh.start_period + sh.panic_duration := by omega
    simp [h1, h2]

/-- The guard: for every duration other than 1 the division is safe at every
period. -/
theorem cryptoPanicIntensity_isSome_of_duration_ne_one (e : ℕ → ℚ) (sh : CryptoShock)
    (hd : sh.panic_duration ≠ 1) (t : ℕ) :
    (cryptoPanicIntensity e sh t).isSome = true := by
  unfold cryptoPanicIntensity
  by_cases h1 : t < sh.start_period
  · simp [h1]
  · by_cases h2 : t < sh.start_period + sh.panic_duration
    · have hpk : sh.panic_duration / 2 ≠ 0 := by omega
      by_cases h3 : t - sh.start_period ≤ sh.panic_duration / 2
      · simp [h1, h2, h3, hpk]
      · simp [h1, h2, h3]
    · simp [h1, h2]

/-- A driver iteration only fails through the intensity computation. -/
theorem cryptoStep_isSome (P : CryptoParams) (sh : CryptoShock) (gen : ℕ → ℕ → ℚ)
    (e : ℕ → ℚ) (st : SimState) (t : ℕ)
    (h : (cryptoPanicIntensity e sh t).isSome = true) :
    (cryptoStep P sh gen e st t).isSome = true := by
  unfold cryptoStep
  obtain ⟨v, hv⟩ := Option.isSome_iff_exists.mp h
  rw [hv]
  rfl

/-- Once the loop is going to visit the start period of a duration-1 panic,
the whole run returns `none`. -/
theorem foldl_crash_of_mem (P : CryptoParams) (sh : CryptoShock) (gen : ℕ → ℕ → ℚ)
    (e : ℕ → ℚ) (hd : sh.panic_duration = 1) :
    ∀ (l : List ℕ) (st : SimState), sh.start_period ∈ l →
      List.foldl (fun acc t => acc.bind (fun s => cryptoStep P sh gen e s t))
        (some st) l = none := by
  intro l
  induction l with
  | nil => intro st hmem; simp at hmem
  | cons t l ih =>
    intro st hmem
    by_cases ht : t = sh.start_period
    · have hstep : cryptoStep P sh gen e st t = none := by
        subst ht
        unfold cryptoStep
        rw [cryptoPanicIntensity_none_at_start e sh hd]
        rfl
      simp only [List.foldl_cons, Option.some_bind, hstep]
      exact foldl_bind_none _ l
    · have hmem' : sh.start_period ∈ l := by
        rcases List.mem_cons.mp hmem with h | h
        · exact absurd h.symm ht
        · exact h
      rcases hs : cryptoStep P sh gen e st t with _ | st'
      · simp only [List.foldl_cons, Option.some_bind, hs]
        exact foldl_bind_none _ l
      · simp only [List.foldl_cons, Option.some_bind, hs]
        exact ih st' hmem'

/-- C9: a crypto-panic run whose parsed `panic_duration` is 1 divides by
`peak_period = 1 // 2 = 0` as soon as the driver reaches the start period, so
`simulate` aborts (`ZeroDivisionError`, modelled as `none`) whenever
`start_period < periods`; and the division is guarded for every other
duration (for `panic_duration ≥ 2`, and vacuously for 0, the intensity is
always defined). -/
theorem crypto_duration_one_raises :
    (∀ (P : CryptoParams) (cfg : PanicConfig) (gen : ℕ → ℕ → ℚ) (e : ℕ → ℚ) (g0 : Rng),
      (parseShock cfg).panic_duration = 1 →
      (parseShock cfg).start_period < P.periods →
      cryptoSimulate P cfg gen e g0 = none) ∧
    (∀ (e : ℕ → ℚ) (sh : CryptoShock) (t : ℕ), sh.panic_duration ≠ 1 →
      (cryptoPanicIntensity e sh t).isSome = true) := by
  constructor
  · intro P cfg gen e g0 hd hs
    simp only [cryptoSimulate]
    rw [foldl_crash_of_mem P (parseShock cfg) gen e hd (List.range P.periods)
      (initState P) (List.mem_range.mpr hs)]
    rfl
  · intro e sh t hd
    exact cryptoPanicIntensity_isSome_of_duration_ne_one e sh hd t

/-- C9 (witness): the default calibration with a duration-1 panic starting at
period 0 aborts, and the default duration 7 is safe at period 3. -/
theorem crypto_duration_one_raises_witness :
    (parseShock cfgDur1).panic_duration = 1 ∧
    (parseShock cfgDur1).start_period < cryptoDefaults.periods ∧
    cryptoSimulate cryptoDefaults cfgDur1 zeroGen oneExp { seed := 0, pos := 0 } = none ∧
    (cryptoPanicIntensity oneExp (parseShock cfgZero) 3).isSome = true :=
  ⟨rfl, by decide,
   crypto_duration_one_raises.1 cryptoDefaults cfgDur1 zeroGen oneExp
     { seed := 0, pos := 0 } rfl (by decide),
   crypto_duration_one_raises.2 oneExp (parseShock cfgZero) 3 (by decide)⟩

/-- With a nonnegative recovery rate, a reserve in `[0,1]` stays in `[0,1]`
under any withdrawal pressure of either sign. -/
theorem exchangeStep_fst_mem (rr ft p : ℚ) (hrr : 0 ≤ rr) (x : ℚ × Bool)
    (h0 : 0 ≤ x.1) (h1 : x.1 ≤ 1) :
    0 ≤ (exchangeStep rr ft p x).1 ∧ (exchangeStep rr ft p x).1 ≤ 1 := by
  rcases x with ⟨r, op⟩
  cases op
  · exact ⟨h0, h1⟩
  · have hfst : (exchangeStep rr ft p (r, true)).1 = updateReserve rr p r true := rfl
    rw [hfst, updateReserve_true]
    by_cases hp : p < 1/10
    · rw [if_pos hp]
      exact ⟨le_min (by norm_num) (add_nonneg (le_max_left 0 _) hrr), min_le_left _ _⟩
    · rw [if_neg hp]
      refine ⟨le_max_left 0 _, max_le (by norm_num) ?_⟩
      have hp' : (1:ℚ)/10 ≤ p := not_lt.mp hp
      nlinarith

/-- The mean of a nonempty list of `[0,1]` values lies in `[0,1]`. -/
theorem ratMean_mem (l : List ℚ) (hne : l ≠ [])
    (h : ∀ x ∈ l, 0 ≤ x ∧ x ≤ 1) : 0 ≤ ratMean l ∧ ratMean l ≤ 1 := by
  have hlen : 0 < (l.length : ℚ) := by
    have h1 : 0 < l.length := List.length_pos.mpr hne
    exact_mod_cast h1
  unfold ratMean
  constructor
  · exact div_nonneg (List.sum_nonneg fun x hx => (h x hx).1) (le_of_lt hlen)
  · rw [div_le_one hlen]
    have h2 : l.sum ≤ l.length • (1:ℚ) := List.sum_le_card_nsmul l 1 fun x hx => (h x hx).2
    simpa using h2

/-- The price floors (crypto_panic.py lines 409-411) keep all three prices
positive whatever the computed returns. -/
theorem priceUpdate_prices_pos (P : CryptoParams) (gen : ℕ → ℕ → ℚ) (g : Rng)
    (intensity sell_rate intent prev_liquidity pb pe pd : ℚ)
    (hb : 0 < pb) (he : 0 < pe) (hd : 0 < pd) :
    0 < (priceUpdate P gen g intensity sell_rate intent prev_liquidity pb pe pd).1.btc_price ∧
    0 < (priceUpdate P gen g intensity sell_rate intent prev_liquidity pb pe pd).1.eth_price ∧
    0 < (priceUpdate P gen g intensity sell_rate intent prev_liquidity pb pe pd).1.doge_price := by
  refine ⟨?_, ?_, ?_⟩ <;>
    · simp only [priceUpdate]
      exact lt_max_iff.mpr (Or.inr (by positivity))

/-- One driver iteration preserves the range invariant (for a nonnegative
recovery rate), for every period index, intensity and RNG outcome. -/
theorem cryptoStepCore_bounded (P : CryptoParams) (gen : ℕ → ℕ → ℚ)
    (hrr : 0 ≤ P.exchange_recovery_rate) (st : SimState) (t : ℕ) (intensity : ℚ)
    (hInv : stateBounded st) : stateBounded (cryptoStepCore P gen st t intensity) := by
  obtain ⟨hb, he, hd, hx, hne, hrecs⟩ := hInv
  have hpool : ∀ p : ℚ, ∀ x ∈ exchangePoolNext P p st.exchanges, 0 ≤ x.1 ∧ x.1 ≤ 1 := by
    intro p x hmem
    obtain ⟨y, hy, rfl⟩ := List.mem_map.mp hmem
    exact exchangeStep_fst_mem P.exchange_recovery_rate P.exchange_freeze_threshold p hrr y
      (hx y hy).1 (hx y hy).2
  have hpoolne : ∀ p : ℚ, exchangePoolNext P p st.exchanges ≠ [] := by
    intro p hnil
    exact hne (List.map_eq_nil_iff.mp hnil)
  have hmean : ∀ p : ℚ,
      0 ≤ ratMean ((exchangePoolNext P p st.exchanges).map Prod.fst) ∧
      ratMean ((exchangePoolNext P p st.exchanges).map Prod.fst) ≤ 1 := by
    intro p
    refine ratMean_mem _ ?_ ?_
    · intro hnil
      exact hpoolne p (List.map_eq_nil_iff.mp hnil)
    · intro x hmem
      obtain ⟨y, hy, rfl⟩ := List.mem_map.mp hmem
      exact hpool p y hy
  by_cases ht : t = 0
  · subst ht
    refine ⟨hb, he, hd, hpool _, hpoolne _, ?_⟩
    intro rec hrec
    rcases List.mem_append.mp hrec with hmem | hmem
    · exact hrecs rec hmem
    · rw [List.mem_singleton] at hmem
      subst hmem
      exact ⟨hb, he, hd, hpool _, (hmean _).1, (hmean _).2⟩
  · have hpr := priceUpdate_prices_pos P gen
      (whaleNext P gen st.rng st.whale_coord st.whale_intent intensity).rng intensity
      (retailSellRate P (retailPanicNext P st.retail_panic intensity))
      (whaleNext P gen st.rng st.whale_coord st.whale_intent intensity).manipulation_intent
      st.prev_liquidity st.prev_btc st.prev_eth st.prev_doge hb he hd
    simp only [cryptoStepCore, if_neg ht]
    refine ⟨hpr.1, hpr.2.1, hpr.2.2, hpool _, hpoolne _, ?_⟩
    intro rec hrec
    rcases List.mem_append.mp hrec with hmem | hmem
    · exact hrecs rec hmem
    · rw [List.mem_singleton] at hmem
      subst hmem
      exact ⟨hpr.1, hpr.2.1, hpr.2.2, hpool _, (hmean _).1, (hmean _).2⟩

/-- Fold principle: a per-iteration invariant survives the driver loop. -/
theorem foldl_bind_preserves {σ : Type} (f : σ → ℕ → Option σ) (Inv : σ → Prop)
    (hf : ∀ s t s', Inv s → f s t = some s' → Inv s') :
    ∀ (l : List ℕ) (s s' : σ), Inv s →
      List.foldl (fun acc t => acc.bind (fun st => f st t)) (some s) l = some s' → Inv s' := by
  intro l
  induction l with
  | nil =>
    intro s s' hs h
    simp only [List.foldl_nil] at h
    exact Option.some.inj h ▸ hs
  | cons t l ih =>
    intro s s' hs h
    simp only [List.foldl_cons, Option.some_bind] at h
    rcases hstep : f s t with _ | s1
    · rw [hstep, foldl_bind_none] at h
      exact Option.noConfusion h
    · rw [hstep] at h
      exact ih s1 s' (hf s t s1 hs hstep) h

/-- C4 (amended): every completed crypto-panic run with positive initial asset
prices, at least one exchange and a nonnegative `exchange_recovery_rate` (the
default is 0.1) keeps every period's three prices strictly positive — each
price is floored at a positive fraction (1% / 0.1%) of the previous price —
and every per-exchange liquidity reserve and the aggregate exchange liquidity
inside `[0, 1]`, for every shock configuration and every RNG outcome. -/
theorem crypto_run_bounds (P : CryptoParams) (cfg : PanicConfig) (gen : ℕ → ℕ → ℚ)
    (e : ℕ → ℚ) (g0 : Rng)
    (hb : 0 < P.btc_initial_price) (he : 0 < P.eth_initial_price)
    (hd : 0 < P.doge_initial_price) (hrr : 0 ≤ P.exchange_recovery_rate)
    (hn : 0 < P.num_exchanges) :
    runBounded (cryptoSimulate P cfg gen e g0) := by
  intro recs hrecs rec hrec
  simp only [cryptoSimulate] at hrecs
  obtain ⟨stf, hfold, hrecords⟩ := Option.map_eq_some'.mp hrecs
  have hinit : stateBounded (initState P) := by
    refine ⟨hb, he, hd, ?_, ?_, ?_⟩
    · intro x hmem
      have hx := List.eq_of_mem_replicate hmem
      subst hx
      norm_num
    · exact List.ne_nil_of_length_pos (by simpa [initState] using hn)
    · intro r hr
      simp [initState] at hr
  have hstep : ∀ (s : SimState) (t : ℕ) (s' : SimState), stateBounded s →
      cryptoStep P (parseShock cfg) gen e s t = some s' → stateBounded s' := by
    intro s t s' hs hsome
    obtain ⟨v, _, hcore⟩ := Option.map_eq_some'.mp hsome
    exact hcore ▸ cryptoStepCore_bounded P gen hrr s t v hs
  have hfinal : stateBounded stf :=
    foldl_bind_preserves _ stateBounded hstep (List.range P.periods) (initState P) stf hinit hfold
  exact hfinal.2.2.2.2.2 rec (hrecords ▸ hrec)

/-- C4 (counterexample): a run with positive initial prices but
`exchange_recovery_rate = -1` (accepted unvalidated) drives the single
exchange's reserve, and hence `exchange_liquidity[1]`, to −1 — outside
`[0, 1]`. -/
theorem crypto_liquidity_counterexample :
    (cryptoSimulate paramsNegRecovery cfgZero zeroGen oneExp { seed := 0, pos := 0 }).map
        (fun recs => recs.map (fun r => r.exchange_liquidity)) = some [0, -1] ∧
    ¬ (0 ≤ (-1 : ℚ)) := by
  constructor
  · norm_num [cryptoSimulate, cryptoStep, cryptoStepCore, cryptoPanicIntensity, parseShock,
      cfgZero, paramsNegRecovery, cryptoDefaults, initState, List.range_succ,
      retailPanicNext, retailSellRate, whaleNext, priceUpdate, priceStepInit,
      exchangePoolNext, exchangeStep, updateReserve, updateStatus, ratMean,
      socialNext, clip, drawRaw, drawNormal, drawUniform, zeroGen, oneExp,
      max_def, min_def, abs_eq_max_neg, List.replicate]
  · norm_num

/-- A zero-intensity shock yields intensity exactly 0 at every period (the
ramp, the decay and the exponential tail are all scaled by the trigger
intensity, and the clamp keeps 0), provided the duration avoids the
division-by-zero of C9. -/
theorem cryptoPanicIntensity_zero (e : ℕ → ℚ) (sh : CryptoShock)
    (h0 : sh.trigger_intensity = 0) (hd : sh.panic_duration ≠ 1) (t : ℕ) :
    cryptoPanicIntensity e sh t = some 0 := by
  unfold cryptoPanicIntensity
  by_cases h1 : t < sh.start_period
  · simp [h1]
  · by_cases h2 : t < sh.start_period + sh.panic_duration
    · have hpk : sh.panic_duration / 2 ≠ 0 := by omega
      by_cases h3 : t - sh.start_period ≤ sh.panic_duration / 2
      · simp [h1, h2, h3, hpk, h0]
      · simp [h1, h2, h3, h0]
    · simp [h1, h2, h0]

/-- The sum of a list of ones is the list's length. -/
theorem sum_of_ones (l : List ℚ) (h : ∀ x ∈ l, x = 1) : l.sum = l.length := by
  induction l with
  | nil => simp
  | cons a l ih =>
    have ha : a = 1 := h a (List.mem_cons_self a l)
    have hl : ∀ x ∈ l, x = 1 := fun x hx => h x (List.mem_cons_of_mem a hx)
    rw [List.sum_cons, List.length_cons, ha, ih hl]
    push_cast
    ring

/-- The mean of a nonempty all-ones list is 1. -/
theorem ratMean_ones (l : List ℚ) (hne : l ≠ []) (h : ∀ x ∈ l, x = 1) :
    ratMean l = 1 := by
  unfold ratMean
  rw [sum_of_ones l h]
  have h1 : 0 < l.length := List.length_pos.mpr hne
  have hlen : (l.length : ℚ) ≠ 0 := by exact_mod_cast h1.ne'
  exact div_self hlen

/-- Under zero pressure and a nonnegative recovery rate, a full reserve stays
full (operational: depletes by 0 then recovers, capped at 1; frozen:
untouched). -/
theorem exchangeStep_fst_one (rr ft : ℚ) (hrr : 0 ≤ rr) (x : ℚ × Bool)
    (hx : x.1 = 1) : (exchangeStep rr ft 0 x).1 = 1 := by
  rcases x with ⟨r, op⟩
  simp only at hx
  subst hx
  cases op
  · rfl
  · have hfst : (exchangeStep rr ft 0 (1, true)).1 = updateReserve rr 0 1 true := rfl
    rw [hfst, updateReserve_true, if_pos (by norm_num)]
    rw [show max (0:ℚ) (1 - 0 * (1/10)) = 1 by norm_num [max_def]]
    exact min_eq_left (by linarith)

/-- With zero intensity, zero sell rate, zero whale intent and full liquidity,
the three returns reduce to correlated noise plus the DOGE social impulses:
every agent-pressure term vanishes. -/
theorem priceUpdate_noise_decomp (P : CryptoParams) (gen : ℕ → ℕ → ℚ) (g : Rng)
    (pb pe pd : ℚ) :
    (priceUpdate P gen g 0 0 0 1 pb pe pd).1.btc_change =
      (priceUpdate P gen g 0 0 0 1 pb pe pd).1.btc_noise ∧
    (priceUpdate P gen g 0 0 0 1 pb pe pd).1.eth_change =
      (priceUpdate P gen g 0 0 0 1 pb pe pd).1.btc_change * P.btc_to_eth_correlation +
      (priceUpdate P gen g 0 0 0 1 pb pe pd).1.eth_noise ∧
    (priceUpdate P gen g 0 0 0 1 pb pe pd).1.doge_change =
      (priceUpdate P gen g 0 0 0 1 pb pe pd).1.btc_change * P.btc_to_doge_correlation +
      (priceUpdate P gen g 0 0 0 1 pb pe pd).1.eth_change * P.eth_to_doge_correlation +
      (priceUpdate P gen g 0 0 0 1 pb pe pd).1.doge_noise +
      (priceUpdate P gen g 0 0 0 1 pb pe pd).1.celeb_effect +
      (priceUpdate P gen g 0 0 0 1 pb pe pd).1.pump_effect := by
  refine ⟨?_, ?_, ?_⟩ <;>
    · simp only [priceUpdate]
      ring

/-- One zero-intensity driver iteration keeps the whole state at rest. -/
theorem cryptoStepCore_atRest (P : CryptoParams) (gen : ℕ → ℕ → ℚ)
    (hrr : 0 ≤ P.exchange_recovery_rate) (st : SimState) (t : ℕ)
    (hInv : stateAtRest P st) : stateAtRest P (cryptoStepCore P gen st t 0) := by
  obtain ⟨hr0, hwc0, hwi0, hx1, hne, hliq1, hrecs⟩ := hInv
  have hretail : retailPanicNext P st.retail_panic 0 = 0 := by
    rw [hr0]
    unfold retailPanicNext
    split_ifs <;> norm_num [max_def, min_def]
  have hsell : retailSellRate P 0 = 0 := by
    unfold retailSellRate
    norm_num [min_def]
  have hw : whaleNext P gen st.rng st.whale_coord st.whale_intent 0 =
      { coordination_level := 0, manipulation_intent := 0, rng := st.rng } := by
    unfold whaleNext
    rw [if_neg (by norm_num), hwc0, hwi0]
    norm_num [max_def]
  have hpress : (0:ℚ) * (1 + 0) = 0 := by norm_num
  have hpool1 : ∀ x ∈ exchangePoolNext P 0 st.exchanges, x.1 = 1 := by
    intro x hmem
    obtain ⟨y, hy, rfl⟩ := List.mem_map.mp hmem
    exact exchangeStep_fst_one P.exchange_recovery_rate P.exchange_freeze_threshold hrr y
      (hx1 y hy)
  have hpoolne : exchangePoolNext P 0 st.exchanges ≠ [] := by
    intro hnil
    exact hne (List.map_eq_nil_iff.mp hnil)
  have hmean1 : ratMean ((exchangePoolNext P 0 st.exchanges).map Prod.fst) = 1 := by
    refine ratMean_ones _ ?_ ?_
    · intro hnil
      exact hpoolne (List.map_eq_nil_iff.mp hnil)
    · intro x hmem
      obtain ⟨y, hy, rfl⟩ := List.mem_map.mp hmem
      exact hpool1 y hy
  simp only [cryptoStepCore, hretail, hsell, hw, hliq1, zero_mul, add_zero, mul_one,
    zero_add, hpress]
  by_cases ht : t = 0
  · subst ht
    simp only [reduceIte]
    refine ⟨rfl, rfl, rfl, hpool1, hpoolne, hmean1, ?_⟩
    intro rec hrec
    rcases List.mem_append.mp hrec with hmem | hmem
    · exact hrecs rec hmem
    · rw [List.mem_singleton] at hmem
      subst hmem
      exact ⟨rfl, rfl, rfl, rfl, rfl, by norm_num, by norm_num [priceStepInit],
        by norm_num [priceStepInit], by norm_num [priceStepInit]⟩
  · simp only [if_neg ht]
    have hdec := priceUpdate_noise_decomp P gen st.rng st.prev_btc st.prev_eth st.prev_doge
    refine ⟨rfl, rfl, rfl, hpool1, hpoolne, hmean1, ?_⟩
    intro rec hrec
    rcases List.mem_append.mp hrec with hmem | hmem
    · exact hrecs rec hmem
    · rw [List.mem_singleton] at hmem
      subst hmem
      exact ⟨rfl, rfl, rfl, rfl, rfl, by norm_num, hdec.1, hdec.2.1, hdec.2.2⟩

/-- Fold principle: a per-iteration invariant that also guarantees success
survives the whole driver loop with a defined result. -/
theorem foldl_bind_total_preserves {σ : Type} (f : σ → ℕ → Option σ) (Inv : σ → Prop)
    (hf : ∀ s t, Inv s → ∃ s', f s t = some s' ∧ Inv s') :
    ∀ (l : List ℕ) (s : σ), Inv s →
      ∃ s', List.foldl (fun acc t => acc.bind (fun st => f st t)) (some s) l = some s' ∧
        Inv s' := by
  intro l
  induction l with
  | nil => intro s hs; exact ⟨s, rfl, hs⟩
  | cons t l ih =>
    intro s hs
    obtain ⟨s1, hstep, hs1⟩ := hf s t hs
    simp only [List.foldl_cons, Option.some_bind, hstep]
    exact ih s1 hs1

/-- C8 (amended): a crypto-panic run whose parsed `trigger_intensity` is 0
(with a duration other than the crashing 1, a nonnegative recovery rate and
at least one exchange) completes, keeps every cohort at its initial rest
state in every period (retail `panic_state = 0`, `retail_sell_rate = 0`,
whale `coordination_level = 0`, intent and `whale_activity = 0`), and every
period's returns carry no agent-pressure contribution: the BTC return is
exactly its noise draw, the ETH return is its correlated-plus-idiosyncratic
noise, and the DOGE return is its correlated-plus-idiosyncratic noise plus
the exogenous celebrity/pump impulses, which keep firing independently of the
shock. -/
theorem crypto_zero_intensity_rest (P : CryptoParams) (cfg : PanicConfig)
    (gen : ℕ → ℕ → ℚ) (e : ℕ → ℚ) (g0 : Rng)
    (h0 : (parseShock cfg).trigger_intensity = 0)
    (hd : (parseShock cfg).panic_duration ≠ 1)
    (hrr : 0 ≤ P.exchange_recovery_rate) (hn : 0 < P.num_exchanges) :
    runAtRest P (cryptoSimulate P cfg gen e g0) := by
  have hinit : stateAtRest P (initState P) := by
    refine ⟨rfl, rfl, rfl, ?_, ?_, rfl, ?_⟩
    · intro x hmem
      have hx := List.eq_of_mem_replicate hmem
      subst hx
      rfl
    · exact List.ne_nil_of_length_pos (by simpa [initState] using hn)
    · intro r hr
      simp [initState] at hr
  have hstep : ∀ (s : SimState) (t : ℕ), stateAtRest P s →
      ∃ s', cryptoStep P (parseShock cfg) gen e s t = some s' ∧ stateAtRest P s' := by
    intro s t hs
    refine ⟨cryptoStepCore P gen s t 0, ?_, cryptoStepCore_atRest P gen hrr s t hs⟩
    unfold cryptoStep
    rw [cryptoPanicIntensity_zero e (parseShock cfg) h0 hd t]
    rfl
  obtain ⟨stf, hfold, hrest⟩ := foldl_bind_total_preserves _ (stateAtRest P) hstep
    (List.range P.periods) (initState P) hinit
  refine ⟨stf.records, ?_, hrest.2.2.2.2.2.2⟩
  simp only [cryptoSimulate, hfold, Option.map_some']

/-- C8 (counterexample): in a zero-intensity run the DOGE return of period 1
is −0.05 — the celebrity impulse (−0.15) plus the pump impulse (+0.10) fired
by this RNG outcome — while its correlated-plus-idiosyncratic noise term is 0,
so the price series does carry a contribution beyond the idiosyncratic-noise
term even though every agent cohort is at rest. -/
theorem crypto_zero_intensity_counterexample :
    (cryptoSimulate paramsUnit cfgZero zeroGen oneExp { seed := 0, pos := 0 }).map
        (fun recs => recs.map (fun r =>
          (r.doge_change, r.btc_change * paramsUnit.btc_to_doge_correlation +
            r.eth_change * paramsUnit.eth_to_doge_correlation + r.doge_noise))) =
      some [(0, 0), (-1/20, 0)] ∧ (-1/20 : ℚ) ≠ 0 := by
  constructor
  · norm_num [cryptoSimulate, cryptoStep, cryptoStepCore, cryptoPanicIntensity, parseShock,
      cfgZero, paramsUnit, cryptoDefaults, initState, List.range_succ,
      retailPanicNext, retailSellRate, whaleNext, priceUpdate, priceStepInit,
      exchangePoolNext, exchangeStep, updateReserve, updateStatus, ratMean,
      socialNext, clip, drawRaw, drawNormal, drawUniform, zeroGen, oneExp,
      max_def, min_def, abs_eq_max_neg, List.replicate]
  · norm_num

/-- C8 (witness): the default calibration with a zero-intensity, duration-7
shock satisfies the amended statement. -/
theorem crypto_zero_intensity_rest_witness :
    (parseShock cfgZero).trigger_intensity = 0 ∧
    (parseShock cfgZero).panic_duration ≠ 1 ∧
    0 ≤ cryptoDefaults.exchange_recovery_rate ∧
    0 < cryptoDefaults.num_exchanges ∧
    runAtRest cryptoDefaults
      (cryptoSimulate cryptoDefaults cfgZero zeroGen oneExp { seed := 0, pos := 0 }) :=
  ⟨rfl, by decide, by norm_num [cryptoDefaults], by norm_num [cryptoDefaults],
   crypto_zero_intensity_rest cryptoDefaults cfgZero zeroGen oneExp { seed := 0, pos := 0 }
     rfl (by decide) (by norm_num [cryptoDefaults]) (by norm_num [cryptoDefaults])⟩

/-- C4 (witness): the default calibration (positive prices, 20 exchanges,
recovery rate 0.1) satisfies the amended range invariant. -/
theorem crypto_run_bounds_witness :
    0 < cryptoDefaults.btc_initial_price ∧ 0 < cryptoDefaults.eth_initial_price ∧
    0 < cryptoDefaults.doge_initial_price ∧ 0 ≤ cryptoDefaults.exchange_recovery_rate ∧
    0 < cryptoDefaults.num_exchanges ∧
    runBounded (cryptoSimulate cryptoDefaults cfgZero zeroGen oneExp { seed := 0, pos := 0 }) :=
  ⟨by norm_num [cryptoDefaults], by norm_num [cryptoDefaults], by norm_num [cryptoDefaults],
   by norm_num [cryptoDefaults], by norm_num [cryptoDefaults],
   crypto_run_bounds cryptoDefaults cfgZero zeroGen oneExp { seed := 0, pos := 0 }
     (by norm_num [cryptoDefaults]) (by norm_num [cryptoDefaults])
     (by norm_num [cryptoDefaults]) (by norm_num [cryptoDefaults])
     (by norm_num [cryptoDefaults])⟩
